import Mathlib

/-
Verification of src/verification/verify_chat.py.

The script is a fixed linear sequence of playwright calls:

    from playwright.sync_api import sync_playwright

    def run(playwright):
        browser = playwright.chromium.launch(headless=True)
        context = browser.new_context()
        page = context.new_page()
        page.goto("http://localhost:1420/")
        page.wait_for_timeout(5000)
        page.screenshot(path="verification/verification.png")
        browser.close()

    with sync_playwright() as playwright:
        run(playwright)

The embedding records, for one invocation of the script:
  * the trace of browser-automation calls issued, in order;
  * the filesystem (a map from path to the image stored there, if any);
  * the outcome (normal completion, or the first uncaught exception);
  * a discrete clock (milliseconds) recording when navigation was issued
    and when the screenshot capture was issued.

The playwright library itself is not part of the repository; its calls are
modelled as environment-determined outcomes: each call either returns or
raises, as chosen by an `Env`.  The source has no try/except, so the first
raising call aborts `run`; the top-level with-statement stops the driver on
every exit path and re-raises.
-/

namespace VerifyChat

/-- A captured image: an abstract content value plus whether it was a
full-page capture (the whole scrollable page) or a viewport-only capture. -/
structure Image where
  content : Nat
  fullPage : Bool
deriving Repr, DecidableEq

/-- The filesystem, restricted to what the script touches: each path holds
at most one image. -/
abbrev Fs := String → Option Image

/-- Writing a file: creates or overwrites the entry at `path`, leaving every
other path unchanged. -/
def Fs.write (fs : Fs) (path : String) (img : Image) : Fs :=
  fun q => if q = path then some img else fs q

/-- The browser-automation calls the script can issue.  `mkdir` is in the
vocabulary only so that "the program never creates a directory" is a
statement about traces; `run` never emits it. -/
inductive Action where
  | launch (headless : Bool)
  | newContext
  | newPage
  | goto (url : String)
  | waitForTimeout (ms : Nat)
  | screenshot (path : String) (fullPage : Bool)
  | closeBrowser
  | stopDriver
  | mkdir (path : String)
deriving Repr, DecidableEq

/-- Outcome of a `page.goto` call: either the server answered (the call
returns a response object carrying an HTTP status, which the source
discards), or the load failed at the network level (unreachable target,
connection refused), in which case the sync playwright call raises. -/
inductive GotoOutcome where
  | response (status : Nat)
  | netError
deriving Repr, DecidableEq

/-- Whether a navigation outcome is a returned response (as opposed to a
raised network error). -/
def GotoOutcome.isResponse : GotoOutcome → Bool
  | GotoOutcome.response _ => true
  | GotoOutcome.netError => false

/-- The exceptions the modelled library calls can raise. -/
inductive PWError where
  | launchFailed
  | contextFailed
  | pageFailed
  | netError
  | screenshotFailed
  | closeFailed
deriving Repr, DecidableEq

/-- The environment: how each playwright call behaves on this invocation.
`gotoMillis` is the wall-clock duration of the navigation call, `render`
the content the page would render into a capture, `dirExists` whether the
`verification/` directory exists at capture time, `writeAllowed` whether the
filesystem permits the write. -/
structure Env where
  launchOk : Bool
  newContextOk : Bool
  newPageOk : Bool
  gotoOutcome : GotoOutcome
  gotoMillis : Nat
  dirExists : Bool
  writeAllowed : Bool
  closeOk : Bool
  render : Nat
deriving Repr

/-- The same environment with the navigation outcome replaced by a returned
response with the given HTTP status. -/
def Env.withStatus (env : Env) (s : Nat) : Env :=
  { env with gotoOutcome := GotoOutcome.response s }

/-- Result of one invocation: the calls issued in order, the filesystem
after the run, the outcome, and the clock readings (ms) at which navigation
and the screenshot capture were issued (`none` if never reached). -/
structure RunResult where
  trace : List Action
  fs : Fs
  outcome : Except PWError Unit
  navStart : Option Nat
  captureTime : Option Nat

/-- Modelled from the spec: the screenshot call's write step.  The spec's
"Missing output directory" property says a missing `verification/` directory
makes the run terminate with a non-zero exit status and write no file, and
"The containing directory is assumed to pre-exist; this system does not
create it."; likewise an unwritable path raises.  Otherwise the call creates
or overwrites the file at `path` with the captured image. -/
def screenshotWrite (env : Env) (fs : Fs) (path : String) (fullPage : Bool) :
    Except PWError Fs :=
  if env.dirExists && env.writeAllowed then
    Except.ok (Fs.write fs path { content := env.render, fullPage := fullPage })
  else
    Except.error PWError.screenshotFailed

/-- Shallow embedding of `run(playwright)` from src/verification/verify_chat.py.
Each playwright call is issued in source order and appended to the trace at
the moment it is made; a call that fails raises, and since the source has no
try/except the exception aborts the remainder of `run`.  The clock starts at
0 when navigation is issued; `page.wait_for_timeout(5000)` suspends for
exactly 5000 ms.  The source passes only `path` to `page.screenshot`; the
library's `full_page` option defaults to `False` (viewport-only capture), so
the issued call carries `false`. -/
def run (env : Env) (fs0 : Fs) : RunResult :=
  -- browser = playwright.chromium.launch(headless=True)
  let tr1 := [Action.launch true]
  if env.launchOk then
    -- context = browser.new_context()
    let tr2 := tr1 ++ [Action.newContext]
    if env.newContextOk then
      -- page = context.new_page()
      let tr3 := tr2 ++ [Action.newPage]
      if env.newPageOk then
        -- page.goto("http://localhost:1420/")
        let tr4 := tr3 ++ [Action.goto "http://localhost:1420/"]
        let navAt : Nat := 0
        match env.gotoOutcome with
        | GotoOutcome.netError =>
            { trace := tr4, fs := fs0, outcome := Except.error PWError.netError,
              navStart := some navAt, captureTime := none }
        | GotoOutcome.response _status =>
            -- the returned response object is discarded by the source
            -- page.wait_for_timeout(5000)
            let tr5 := tr4 ++ [Action.waitForTimeout 5000]
            let capAt := navAt + env.gotoMillis + 5000
            -- page.screenshot(path="verification/verification.png")
            let tr6 := tr5 ++ [Action.screenshot "verification/verification.png" false]
            match screenshotWrite env fs0 "verification/verification.png" false with
            | Except.error e =>
                { trace := tr6, fs := fs0, outcome := Except.error e,
                  navStart := some navAt, captureTime := some capAt }
            | Except.ok fs1 =>
                -- browser.close()
                let tr7 := tr6 ++ [Action.closeBrowser]
                if env.closeOk then
                  { trace := tr7, fs := fs1, outcome := Except.ok (),
                    navStart := some navAt, captureTime := some capAt }
                else
                  { trace := tr7, fs := fs1, outcome := Except.error PWError.closeFailed,
                    navStart := some navAt, captureTime := some capAt }
      else
        { trace := tr3, fs := fs0, outcome := Except.error PWError.pageFailed,
          navStart := none, captureTime := none }
    else
      { trace := tr2, fs := fs0, outcome := Except.error PWError.contextFailed,
        navStart := none, captureTime := none }
  else
    { trace := tr1, fs := fs0, outcome := Except.error PWError.launchFailed,
      navStart := none, captureTime := none }

/-- Shallow embedding of the script's top level:
`with sync_playwright() as playwright: run(playwright)`.
Python's with-statement runs the context manager's exit handler — which
stops the playwright driver — on every exit path, normal or exceptional,
and then re-raises any exception unchanged. -/
def script (env : Env) (fs0 : Fs) : RunResult :=
  let r := run env fs0
  { trace := r.trace ++ [Action.stopDriver], fs := r.fs, outcome := r.outcome,
    navStart := r.navStart, captureTime := r.captureTime }

/-- Process exit status: 0 on normal completion, 1 when an uncaught
exception terminates the interpreter. -/
def exitCode (r : RunResult) : Nat :=
  match r.outcome with
  | Except.ok _ => 0
  | Except.error _ => 1

/-- The full sequence of calls a fault-free invocation of `run` issues, in
source order. -/
def canonicalTrace : List Action :=
  [Action.launch true, Action.newContext, Action.newPage,
   Action.goto "http://localhost:1420/", Action.waitForTimeout 5000,
   Action.screenshot "verification/verification.png" false, Action.closeBrowser]

/-- An environment in which every call succeeds and the server answers 200. -/
def envOk : Env :=
  { launchOk := true, newContextOk := true, newPageOk := true,
    gotoOutcome := GotoOutcome.response 200, gotoMillis := 0,
    dirExists := true, writeAllowed := true, closeOk := true, render := 7 }

/-- An environment in which nothing listens on port 1420: `page.goto`
raises a network error; everything else would succeed. -/
def envRefused : Env :=
  { envOk with gotoOutcome := GotoOutcome.netError }

/-- An environment in which the `verification/` directory is missing at
capture time; everything else succeeds. -/
def envNoDir : Env :=
  { envOk with dirExists := false }

/-- The empty filesystem. -/
def fsEmpty : Fs := fun _ => none

theorem run_trace_take (env : Env) (fs0 : Fs) :
    ∃ n, (run env fs0).trace = canonicalTrace.take n := by
  cases hl : env.launchOk with
  | false => exact ⟨1, by simp [run, hl, canonicalTrace]⟩
  | true =>
    cases hc : env.newContextOk with
    | false => exact ⟨2, by simp [run, hl, hc, canonicalTrace]⟩
    | true =>
      cases hp : env.newPageOk with
      | false => exact ⟨3, by simp [run, hl, hc, hp, canonicalTrace]⟩
      | true =>
        cases hg : env.gotoOutcome with
        | netError => exact ⟨4, by simp [run, hl, hc, hp, hg, canonicalTrace]⟩
        | response s =>
          cases hd : env.dirExists with
          | false =>
            exact ⟨6, by simp [run, screenshotWrite, hl, hc, hp, hg, hd, canonicalTrace]⟩
          | true =>
            cases hw : env.writeAllowed with
            | false =>
              exact ⟨6, by simp [run, screenshotWrite, hl, hc, hp, hg, hd, hw, canonicalTrace]⟩
            | true =>
              refine ⟨7, ?_⟩
              cases hcl : env.closeOk <;>
                simp [run, screenshotWrite, hl, hc, hp, hg, hd, hw, hcl, canonicalTrace]

theorem run_trace_subset (env : Env) (fs0 : Fs) (a : Action)
    (h : a ∈ (run env fs0).trace) : a ∈ canonicalTrace := by
  obtain ⟨n, hn⟩ := run_trace_take env fs0
  rw [hn] at h
  exact List.take_subset n canonicalTrace h

theorem canonicalTrace_nodup : canonicalTrace.Nodup := by
  decide

theorem run_trace_nodup (env : Env) (fs0 : Fs) : (run env fs0).trace.Nodup := by
  obtain ⟨n, hn⟩ := run_trace_take env fs0
  rw [hn]
  exact List.Nodup.sublist (List.take_sublist n canonicalTrace) canonicalTrace_nodup

theorem run_fs_of_capture (env : Env) (fs0 : Fs)
    (hl : env.launchOk = true) (hc : env.newContextOk = true)
    (hp : env.newPageOk = true) (hg : env.gotoOutcome.isResponse = true)
    (hd : env.dirExists = true) (hw : env.writeAllowed = true) :
    (run env fs0).fs =
      Fs.write fs0 "verification/verification.png"
        { content := env.render, fullPage := false } := by
  cases hgo : env.gotoOutcome with
  | netError => rw [hgo] at hg; simp [GotoOutcome.isResponse] at hg
  | response s =>
    cases hcl : env.closeOk <;>
      simp [run, screenshotWrite, hl, hc, hp, hgo, hd, hw, hcl]

theorem Fs.write_self (fs : Fs) (p : String) (img : Image) :
    Fs.write fs p img p = some img := by
  simp [Fs.write]

theorem Fs.write_other (fs : Fs) (p : String) (img : Image) (q : String)
    (h : q ≠ p) : Fs.write fs p img q = fs q := by
  simp [Fs.write, h]

/-- Claim C1: `run` takes no inputs beyond the driver handle, and every call
it issues uses the fixed constants: any navigation in the trace targets
`http://localhost:1420/`, any wait lasts exactly 5000 milliseconds, and any
screenshot is written to `verification/verification.png`. -/
theorem c1_fixed_constants (env : Env) (fs0 : Fs) :
    (∀ u, Action.goto u ∈ (run env fs0).trace → u = "http://localhost:1420/") ∧
    (∀ ms, Action.waitForTimeout ms ∈ (run env fs0).trace → ms = 5000) ∧
    (∀ p fp, Action.screenshot p fp ∈ (run env fs0).trace →
      p = "verification/verification.png") := by
  refine ⟨?_, ?_, ?_⟩
  · intro u hu
    have h2 := run_trace_subset env fs0 _ hu
    simp [canonicalTrace] at h2
    exact h2
  · intro ms hm
    have h2 := run_trace_subset env fs0 _ hm
    simp [canonicalTrace] at h2
    exact h2
  · intro p fp hp
    have h2 := run_trace_subset env fs0 _ hp
    simp [canonicalTrace] at h2
    exact h2.1

/-- Claim C1 witness: on an all-success environment the navigation action is
in the trace, and the theorem pins its URL to the fixed constant. -/
theorem c1_witness :
    Action.goto "http://localhost:1420/" ∈ (run envOk fsEmpty).trace ∧
    "http://localhost:1420/" = "http://localhost:1420/" :=
  ⟨by decide, (c1_fixed_constants envOk fsEmpty).1 "http://localhost:1420/" (by decide)⟩

/-- Claim C2 counterexample: a fault-free run completes normally, yet the
image it writes to `verification/verification.png` is a viewport capture,
not a full-page capture: the source passes only `path` to `page.screenshot`,
and the library's `full_page` option defaults to `False`. -/
theorem c2_counterexample :
    (run envOk fsEmpty).outcome = Except.ok () ∧
    (run envOk fsEmpty).fs "verification/verification.png" =
      some { content := 7, fullPage := false } ∧
    ({ content := 7, fullPage := false } : Image).fullPage ≠ true := by
  refine ⟨rfl, rfl, by decide⟩

/-- Claim C2 amended: on every run that reaches the screenshot step with a
writable destination, the image written to the output file is a
viewport-only capture (`fullPage = false`), because the source does not
request a full-page capture. -/
theorem c2_viewport_capture (env : Env) (fs0 : Fs)
    (hl : env.launchOk = true) (hc : env.newContextOk = true)
    (hp : env.newPageOk = true) (hg : env.gotoOutcome.isResponse = true)
    (hd : env.dirExists = true) (hw : env.writeAllowed = true) :
    (run env fs0).fs "verification/verification.png" =
      some { content := env.render, fullPage := false } := by
  rw [run_fs_of_capture env fs0 hl hc hp hg hd hw]
  exact Fs.write_self fs0 "verification/verification.png" _

/-- Claim C2 witness: the amended statement evaluated on the all-success
environment. -/
theorem c2_witness :
    (run envOk fsEmpty).fs "verification/verification.png" =
      some { content := 7, fullPage := false } :=
  c2_viewport_capture envOk fsEmpty rfl rfl rfl rfl rfl rfl

/-- Claim C3 counterexample: when the target refuses the connection the
`page.goto` call raises, so the run does not proceed to the wait or the
screenshot — its trace stops at the navigation action and the run aborts
with the network error. -/
theorem c3_counterexample :
    (run envRefused fsEmpty).trace =
      [Action.launch true, Action.newContext, Action.newPage,
       Action.goto "http://localhost:1420/"] ∧
    (run envRefused fsEmpty).outcome = Except.error PWError.netError ∧
    Action.waitForTimeout 5000 ∉ (run envRefused fsEmpty).trace := by
  refine ⟨rfl, rfl, by decide⟩

/-- Claim C3 amended: the navigation step does not enforce a successful
load for any navigation that returns — whenever `page.goto` returns a
response (any HTTP status), the run proceeds to the fixed wait and to the
screenshot capture without inspecting the outcome; but when the navigation
call raises (e.g. connection refused on an unreachable target), the
exception propagates and the run aborts before the wait. -/
theorem c3_proceeds_when_goto_returns (env : Env) (fs0 : Fs)
    (hl : env.launchOk = true) (hc : env.newContextOk = true)
    (hp : env.newPageOk = true) :
    (env.gotoOutcome.isResponse = true →
      Action.waitForTimeout 5000 ∈ (run env fs0).trace ∧
      Action.screenshot "verification/verification.png" false ∈ (run env fs0).trace) ∧
    (env.gotoOutcome = GotoOutcome.netError →
      (run env fs0).outcome = Except.error PWError.netError ∧
      Action.waitForTimeout 5000 ∉ (run env fs0).trace) := by
  constructor
  · intro hg
    cases hgo : env.gotoOutcome with
    | netError => rw [hgo] at hg; simp [GotoOutcome.isResponse] at hg
    | response s =>
      cases hd : env.dirExists <;> cases hw : env.writeAllowed <;>
        cases hcl : env.closeOk <;>
          constructor <;>
            simp [run, screenshotWrite, hl, hc, hp, hgo, hd, hw, hcl]
  · intro hg
    constructor <;> simp [run, hl, hc, hp, hg]

/-- Claim C3 witness: the amended statement evaluated on the all-success
environment, whose navigation returns status 200. -/
theorem c3_witness :
    Action.waitForTimeout 5000 ∈ (run envOk fsEmpty).trace ∧
    Action.screenshot "verification/verification.png" false ∈ (run envOk fsEmpty).trace :=
  (c3_proceeds_when_goto_returns envOk fsEmpty rfl rfl rfl).1 rfl

/-- Claim C4: every execution of `run` issues its calls in the fixed linear
order launch, new context, new page, goto, wait, screenshot, close — the
trace is always an initial segment of that sequence (so nothing is
reordered, nothing is retried, and the screenshot, when issued, precedes
the browser close), the trace never repeats a call, and a fault-free
execution issues exactly the full sequence. -/
theorem c4_linear_order (env : Env) (fs0 : Fs) :
    (∃ n, (run env fs0).trace = canonicalTrace.take n) ∧
    (run env fs0).trace.Nodup ∧
    (env.launchOk = true → env.newContextOk = true → env.newPageOk = true →
      env.gotoOutcome.isResponse = true → env.dirExists = true →
      env.writeAllowed = true → (run env fs0).trace = canonicalTrace) := by
  refine ⟨run_trace_take env fs0, run_trace_nodup env fs0, ?_⟩
  intro hl hc hp hg hd hw
  cases hgo : env.gotoOutcome with
  | netError => rw [hgo] at hg; simp [GotoOutcome.isResponse] at hg
  | response s =>
    cases hcl : env.closeOk <;>
      simp [run, screenshotWrite, hl, hc, hp, hgo, hd, hw, hcl, canonicalTrace]

/-- Claim C4 witness: on the all-success environment the trace is exactly
the canonical sequence. -/
theorem c4_witness : (run envOk fsEmpty).trace = canonicalTrace :=
  (c4_linear_order envOk fsEmpty).2.2 rfl rfl rfl rfl rfl rfl

/-- Claim C5: a failure of any step is not caught or classified: the
exception propagates unchanged through the with-statement, the process
exits with status 1, no call is retried (the trace never repeats an
action), and a failing run need not have written any screenshot file (as
the connection-refused run shows). -/
theorem c5_unhandled_failure (env : Env) (fs0 : Fs) (e : PWError)
    (h : (run env fs0).outcome = Except.error e) :
    (script env fs0).outcome = Except.error e ∧
    exitCode (script env fs0) = 1 ∧
    (run env fs0).trace.Nodup ∧
    (∃ env1 fs1 e1, (run env1 fs1).outcome = Except.error e1 ∧
      (run env1 fs1).fs "verification/verification.png" = none) := by
  refine ⟨?_, ?_, run_trace_nodup env fs0, ?_⟩
  · simpa [script] using h
  · simp [exitCode, script, h]
  · exact ⟨envRefused, fsEmpty, PWError.netError, rfl, rfl⟩

/-- Claim C5 witness: the connection-refused run fails; the theorem gives
the propagated error and the non-zero exit status there. -/
theorem c5_witness :
    (script envRefused fsEmpty).outcome = Except.error PWError.netError ∧
    exitCode (script envRefused fsEmpty) = 1 :=
  ⟨(c5_unhandled_failure envRefused fsEmpty PWError.netError rfl).1,
   (c5_unhandled_failure envRefused fsEmpty PWError.netError rfl).2.1⟩

/-- Claim C6: if the `verification/` directory does not exist when the run
reaches the screenshot step, the run terminates with exit status 1, the
filesystem is left exactly as it was (no file written, no prior file
touched), and the program never issues a directory-creation call. -/
theorem c6_missing_directory (env : Env) (fs0 : Fs)
    (hl : env.launchOk = true) (hc : env.newContextOk = true)
    (hp : env.newPageOk = true) (hg : env.gotoOutcome.isResponse = true)
    (hd : env.dirExists = false) :
    exitCode (script env fs0) = 1 ∧
    (run env fs0).fs = fs0 ∧
    (∀ p, Action.mkdir p ∉ (run env fs0).trace) := by
  cases hgo : env.gotoOutcome with
  | netError => rw [hgo] at hg; simp [GotoOutcome.isResponse] at hg
  | response s =>
    refine ⟨?_, ?_, ?_⟩
    · simp [exitCode, script, run, screenshotWrite, hl, hc, hp, hgo, hd]
    · simp [run, screenshotWrite, hl, hc, hp, hgo, hd]
    · intro p hmem
      have h2 := run_trace_subset env fs0 _ hmem
      simp [canonicalTrace] at h2

/-- Claim C6 witness: with the directory missing and every other call
succeeding, the exit status is 1 and the filesystem is unchanged. -/
theorem c6_witness :
    exitCode (script envNoDir fsEmpty) = 1 ∧ (run envNoDir fsEmpty).fs = fsEmpty :=
  ⟨(c6_missing_directory envNoDir fsEmpty rfl rfl rfl rfl rfl).1,
   (c6_missing_directory envNoDir fsEmpty rfl rfl rfl rfl rfl).2.1⟩

/-- Claim C7: on every run that reaches the screenshot step, at least
5000 ms of clock time separate the issuing of the navigation from the
issuing of the screenshot capture, whatever the duration of the navigation
call itself: the run always suspends for the full fixed wait in between. -/
theorem c7_wait_at_least_5000 (env : Env) (fs0 : Fs) (n c : Nat)
    (hn : (run env fs0).navStart = some n)
    (hc : (run env fs0).captureTime = some c) :
    5000 ≤ c - n := by
  cases hl : env.launchOk <;>
    cases hcx : env.newContextOk <;>
      cases hp : env.newPageOk <;>
        cases hg : env.gotoOutcome <;>
          cases hd : env.dirExists <;>
            cases hw : env.writeAllowed <;>
              cases hcl : env.closeOk <;>
                simp [run, screenshotWrite, hl, hcx, hp, hg, hd, hw, hcl] at hn hc <;>
                  omega

/-- Claim C7 witness: on the all-success environment navigation is issued
at clock 0 and the capture at clock 5000. -/
theorem c7_witness : 5000 ≤ 5000 - 0 :=
  c7_wait_at_least_5000 envOk fsEmpty 0 5000 rfl rfl

/-- Claim C8: two successive successful invocations both write to the one
fixed path: after the first, the file holds the first capture; after the
second, it holds the second capture (the second run overwrote the first);
and no other path is ever touched by either run. -/
theorem c8_second_run_overwrites (e1 e2 : Env) (fs0 : Fs)
    (h1l : e1.launchOk = true) (h1c : e1.newContextOk = true)
    (h1p : e1.newPageOk = true) (h1g : e1.gotoOutcome.isResponse = true)
    (h1d : e1.dirExists = true) (h1w : e1.writeAllowed = true)
    (h2l : e2.launchOk = true) (h2c : e2.newContextOk = true)
    (h2p : e2.newPageOk = true) (h2g : e2.gotoOutcome.isResponse = true)
    (h2d : e2.dirExists = true) (h2w : e2.writeAllowed = true) :
    (run e1 fs0).fs "verification/verification.png" =
      some { content := e1.render, fullPage := false } ∧
    (run e2 (run e1 fs0).fs).fs "verification/verification.png" =
      some { content := e2.render, fullPage := false } ∧
    (∀ q, q ≠ "verification/verification.png" →
      (run e2 (run e1 fs0).fs).fs q = fs0 q) := by
  rw [run_fs_of_capture e2 (run e1 fs0).fs h2l h2c h2p h2g h2d h2w,
    run_fs_of_capture e1 fs0 h1l h1c h1p h1g h1d h1w]
  refine ⟨Fs.write_self fs0 _ _, Fs.write_self _ _ _, ?_⟩
  intro q hq
  rw [Fs.write_other _ _ _ q hq, Fs.write_other _ _ _ q hq]

/-- Claim C8 witness: two all-success runs with different captured content;
after the second, the fixed path holds the second capture. -/
theorem c8_witness :
    (run { envOk with render := 9 } (run envOk fsEmpty).fs).fs
      "verification/verification.png" = some { content := 9, fullPage := false } :=
  (c8_second_run_overwrites envOk { envOk with render := 9 } fsEmpty
    rfl rfl rfl rfl rfl rfl rfl rfl rfl rfl rfl rfl).2.1

/-- Claim C9: the navigation call's HTTP response is discarded.  The entire
run result is independent of the returned status; whenever setup succeeded
and the navigation returned (any status, 404 and 500 included), the trace
still contains the wait and the screenshot capture; and with the remaining
calls succeeding the run completes normally. -/
theorem c9_response_discarded (env : Env) (fs0 : Fs) (s1 s2 : Nat) :
    run (env.withStatus s1) fs0 = run (env.withStatus s2) fs0 ∧
    (env.launchOk = true → env.newContextOk = true → env.newPageOk = true →
      Action.waitForTimeout 5000 ∈ (run (env.withStatus s1) fs0).trace ∧
      Action.screenshot "verification/verification.png" false
        ∈ (run (env.withStatus s1) fs0).trace) ∧
    (env.launchOk = true → env.newContextOk = true → env.newPageOk = true →
      env.dirExists = true → env.writeAllowed = true → env.closeOk = true →
      (run (env.withStatus s1) fs0).outcome = Except.ok ()) := by
  refine ⟨rfl, ?_, ?_⟩
  · intro hl hc hp
    cases hd : env.dirExists <;> cases hw : env.writeAllowed <;>
      cases hcl : env.closeOk <;>
        constructor <;>
          simp [run, screenshotWrite, Env.withStatus, hl, hc, hp, hd, hw, hcl]
  · intro hl hc hp hd hw hcl
    simp [run, screenshotWrite, Env.withStatus, hl, hc, hp, hd, hw, hcl]

/-- Claim C9 witness: with the server answering 404 the run still completes
normally. -/
theorem c9_witness : (run (envOk.withStatus 404) fsEmpty).outcome = Except.ok () :=
  (c9_response_discarded envOk fsEmpty 404 500).2.2 rfl rfl rfl rfl rfl rfl

/-- Claim C10: on every exit path of the script — normal completion or an
exception raised anywhere inside `run`, including before `browser.close()`
is reached — the with-statement stops the playwright driver last, and the
outcome of `run` passes through it unchanged. -/
theorem c10_driver_always_stopped (env : Env) (fs0 : Fs) :
    (script env fs0).trace.getLast? = some Action.stopDriver ∧
    Action.stopDriver ∈ (script env fs0).trace ∧
    (script env fs0).outcome = (run env fs0).outcome := by
  refine ⟨?_, ?_, rfl⟩
  · simp [script]
  · simp [script]

end VerifyChat
